import Mathlib

/-!
# Verification of `src/opengl/opengl.cpp`

A shallow embedding of the OpenGL back end (`Graphics::Opengl`): the shader
compile step, the triangle program with its host vertex buffer, and the
per-frame operations of the renderer.

Conventions of the embedding.

* `GLfloat` values are kept abstract: every definition is polymorphic in the
  scalar type `F`, of which only `+`, `-`, `*` and the literal `0.5` are used,
  exactly the operations the source applies.  Nothing proved below depends on
  how these operations round.
* Calls into OpenGL and SDL are recorded, in program order, as a list of
  `GLCall` values; what the driver answers is a parameter.
* Machine integers are natural numbers or integers with the width of the C++
  type made explicit (`uint32_t`, `size_t`, `GLsizei`, `GLsizeiptr`).
-/

namespace Graphics
namespace Opengl

/-! ## Machine integers and OpenGL constants -/

/-- Value kept by a `uint32_t`. -/
def to_uint32 (n : Nat) : Nat := n % 2 ^ 32

/-- Value kept by a `size_t` (64-bit target). -/
def to_size_t (n : Nat) : Nat := n % 2 ^ 64

/-- Conversion of an unsigned value to `GLsizei`, a 32-bit signed `int`. -/
def to_GLsizei (n : Nat) : Int :=
  if n % 2 ^ 32 < 2 ^ 31 then ((n % 2 ^ 32 : Nat) : Int) else ((n % 2 ^ 32 : Nat) : Int) - 2 ^ 32

/-- Conversion of an unsigned value to `GLsizeiptr`, a 64-bit signed integer. -/
def to_GLsizeiptr (n : Nat) : Int :=
  if n % 2 ^ 64 < 2 ^ 63 then ((n % 2 ^ 64 : Nat) : Int) else ((n % 2 ^ 64 : Nat) : Int) - 2 ^ 64

/-- Size of `float` in bytes. -/
def sizeof_float : Nat := 4

/-- Size of `Vertex` in bytes, `static_assert(sizeof(Vertex) == 32)`. -/
def sizeof_Vertex : Nat := 32

def GL_FALSE : Nat := 0
def GL_TRUE : Nat := 1
def GL_TRIANGLES : Nat := 0x0004
def GL_FLOAT : Nat := 0x1406
def GL_COLOR_BUFFER_BIT : Nat := 0x4000
def GL_ARRAY_BUFFER : Nat := 0x8892
def GL_DYNAMIC_DRAW : Nat := 0x88E8

/-! ## Data model -/

/-- The two-component `Vector` of the math library. -/
structure Vector (F : Type) where
  x : F
  y : F
deriving DecidableEq, Repr

/-- The colour record read by `draw_cube3d` (`color.r` ... `color.a`). -/
structure Color (F : Type) where
  r : F
  g : F
  b : F
  a : F
deriving DecidableEq, Repr

/-- The rectangle handed to `draw_cube3d`, seen through the three accessors the
source calls on it: `get_value_delta()`, `get_w()`, `get_h()`. -/
structure Cube3d (F : Type) where
  value_delta : Vector F
  w : F
  h : F
deriving DecidableEq, Repr

def Cube3d.get_value_delta {F : Type} (rect : Cube3d F) : Vector F := rect.value_delta

def Cube3d.get_w {F : Type} (rect : Cube3d F) : F := rect.w

def Cube3d.get_h {F : Type} (rect : Cube3d F) : F := rect.h

/-- The record `ProgramTriangle::Vertex`: eight floats, named as the source
names them. -/
structure Vertex (F : Type) where
  x : F
  y : F
  offset_x : F
  offset_y : F
  r : F
  g : F
  b : F
  a : F
deriving DecidableEq, Repr

/-- Modelled from the spec: the host vertex buffer of `ProgramTriangle`
(`triangle_buffer`, declared in the header `opengl.h`).  The spec describes it
as a contiguous growable list of `Vertex` with a capacity and a used-count;
`vertex_buffer.length` is the capacity.  The spec gives the used-count no
width; every place of the source that reads it stores it in a `uint32_t`. -/
structure VertexBuffer (F : Type) where
  vertex_buffer : List (Vertex F)
  vertex_buffer_used : Nat
deriving DecidableEq, Repr

/-- Modelled from the spec: the growth of the host buffer is an
implementation choice.  `target capacity needed` is the capacity the
implementation asks for when `needed` slots do not fit (amortized doubling is
`fun c _ => 2 * c`), and `fresh i` is what slot `i` holds when it is first
obtained. -/
structure Growth (F : Type) where
  target : Nat → Nat → Nat
  fresh : Nat → Vertex F

variable {F : Type}

def VertexBuffer.capacity (buf : VertexBuffer F) : Nat := buf.vertex_buffer.length

/-- Modelled from the spec: `get_vertex_buffer_used()` returns the
used-count. -/
def VertexBuffer.get_vertex_buffer_used (buf : VertexBuffer F) : Nat := buf.vertex_buffer_used

/-- Modelled from the spec: `clear()` resets the used-count to zero and keeps
the capacity. -/
def VertexBuffer.clear (buf : VertexBuffer F) : VertexBuffer F :=
  { buf with vertex_buffer_used := 0 }

/-- Modelled from the spec: the storage after making room for `needed` slots.
Existing slots keep their place and contents; missing slots are appended. -/
def VertexBuffer.reserve (g : Growth F) (buf : VertexBuffer F) (needed : Nat) : List (Vertex F) :=
  if needed ≤ buf.capacity then buf.vertex_buffer
  else buf.vertex_buffer ++
    (List.range (max needed (g.target buf.capacity needed) - buf.capacity)).map
      (fun i => g.fresh (buf.capacity + i))

/-- Modelled from the spec: `alloc_vertices(n)` grows the host buffer if
needed, returns a window of `n` slots and advances the used-count by `n`.  The
window is returned as the index of its first slot; it spans `n` slots. -/
def VertexBuffer.alloc_vertices (g : Growth F) (buf : VertexBuffer F) (n : Nat) :
    VertexBuffer F × Nat :=
  ({ vertex_buffer := buf.reserve g (buf.vertex_buffer_used + n),
     vertex_buffer_used := buf.vertex_buffer_used + n },
   buf.vertex_buffer_used)

/-- The object `ProgramTriangle`: GPU handles and the host buffer. -/
structure ProgramTriangle (F : Type) where
  program_id : Nat
  vao : Nat
  vbo : Nat
  triangle_buffer : VertexBuffer F
deriving DecidableEq, Repr

/-- The object `Renderer`, with the members the frame operations touch.  `M`
is the type of the projection matrix (`Matrix4`). -/
structure Renderer (F M : Type) where
  sdl_window : Nat
  program_triangle : ProgramTriangle F
  projection_matrix : M
  color : Color F

/-- Modelled from the spec: `clear()` of the triangle program clears its host
buffer. -/
def ProgramTriangle.clear (p : ProgramTriangle F) : ProgramTriangle F :=
  { p with triangle_buffer := p.triangle_buffer.clear }

/-- Modelled from the spec: `alloc_vertices(n)` of the triangle program
allocates in its host buffer. -/
def ProgramTriangle.alloc_vertices (g : Growth F) (p : ProgramTriangle F) (n : Nat) :
    ProgramTriangle F × Nat :=
  ({ p with triangle_buffer := (p.triangle_buffer.alloc_vertices g n).1 },
   (p.triangle_buffer.alloc_vertices g n).2)

/-- Assignment `vertices[i].field = ...`: the slot `base + i` of the host
buffer is rewritten by `f`. -/
def ProgramTriangle.store (p : ProgramTriangle F) (base i : Nat) (f : Vertex F → Vertex F) :
    ProgramTriangle F :=
  { p with triangle_buffer :=
      { p.triangle_buffer with
          vertex_buffer := List.modify f (base + i) p.triangle_buffer.vertex_buffer } }

/-! ## Calls into OpenGL and SDL -/

/-- One call into OpenGL or SDL, with the arguments the source passes.
Pointers into the host vertex buffer are slot indices; `M` is the type of the
projection matrix. -/
inductive GLCall (M : Type) where
  | glEnableVertexAttribArray (index : Nat)
  | glVertexAttribPointer (index size type_ normalized stride pointer : Nat)
  | glBufferData (target : Nat) (size : Int) (data : Nat) (usage : Nat)
  | glGetUniformLocation (program : Nat) (name : String)
  | glUniformMatrix4fv (location : Int) (count : Nat) (transpose : Nat) (value : M)
  | glDrawArrays (mode : Nat) (first : Int) (count : Int)
  | glClear (mask : Nat)
  | SDL_GL_SwapWindow (window : Nat)
deriving DecidableEq, Repr

/-- A query call returns a value and changes nothing on the GPU or the window;
the only one issued by the frame operations is `glGetUniformLocation`. -/
def GLCall.is_query {M : Type} : GLCall M → Bool
  | .glGetUniformLocation _ _ => true
  | _ => false

/-- The vertices a `glBufferData` call reads from the host storage: `size`
bytes starting at slot `data`. -/
def GLCall.transferred {M : Type} (storage : List (Vertex F)) : GLCall M → List (Vertex F)
  | .glBufferData _ size data _ => (storage.drop data).take (size.toNat / sizeof_Vertex)
  | _ => []

/-- Modelled from the spec: the attribute slots `Attrib` (declared in the
header `opengl.h`), at the fixed locations 0, 1, 2. -/
inductive Attrib where
  | Position
  | Offset
  | Color
deriving DecidableEq, Repr

/-- Modelled from the spec: `std::to_underlying` on `Attrib`; the spec fixes
the locations 0/1/2 for position, offset and colour. -/
def Attrib.to_underlying : Attrib → Nat
  | .Position => 0
  | .Offset => 1
  | .Color => 2

/-- Modelled from the spec: `get_vertex_buffer()` points at the first vertex
of the host buffer, slot 0. -/
def VertexBuffer.get_vertex_buffer (_buf : VertexBuffer F) : Nat := 0

/-! ## ProgramTriangle -/

/-- `ProgramTriangle::setup_vertex_array`.  `pos` and `length` are the
`uint32_t` locals of the source; each pointer argument is
`pos * sizeof(float)`. -/
def ProgramTriangle.setup_vertex_array {M : Type} : List (GLCall M) :=
  let pos0 : Nat := 0
  let length0 : Nat := 2
  let pos1 : Nat := to_uint32 (pos0 + length0)
  let length1 : Nat := 2
  let pos2 : Nat := to_uint32 (pos1 + length1)
  let length2 : Nat := 4
  [ .glEnableVertexAttribArray Attrib.Position.to_underlying,
    .glEnableVertexAttribArray Attrib.Offset.to_underlying,
    .glEnableVertexAttribArray Attrib.Color.to_underlying,
    .glVertexAttribPointer Attrib.Position.to_underlying length0 GL_FLOAT GL_FALSE
      sizeof_Vertex (to_size_t (pos0 * sizeof_float)),
    .glVertexAttribPointer Attrib.Offset.to_underlying length1 GL_FLOAT GL_FALSE
      sizeof_Vertex (to_size_t (pos1 * sizeof_float)),
    .glVertexAttribPointer Attrib.Color.to_underlying length2 GL_FLOAT GL_FALSE
      sizeof_Vertex (to_size_t (pos2 * sizeof_float)) ]

/-- `ProgramTriangle::upload_vertex_buffer`. -/
def ProgramTriangle.upload_vertex_buffer {M : Type} (p : ProgramTriangle F) : List (GLCall M) :=
  let n : Nat := to_uint32 p.triangle_buffer.get_vertex_buffer_used
  [ .glBufferData GL_ARRAY_BUFFER (to_GLsizeiptr (to_size_t (sizeof_Vertex * n)))
      p.triangle_buffer.get_vertex_buffer GL_DYNAMIC_DRAW ]

/-- `ProgramTriangle::upload_projection_matrix`.  `uniform_location` is the
answer of the driver to `glGetUniformLocation`. -/
def ProgramTriangle.upload_projection_matrix {M : Type} (uniform_location : Nat → String → Int)
    (p : ProgramTriangle F) (m : M) : List (GLCall M) :=
  [ .glGetUniformLocation p.program_id "u_projection_matrix",
    .glUniformMatrix4fv (uniform_location p.program_id "u_projection_matrix") 1 GL_TRUE m ]

/-- `ProgramTriangle::draw`. -/
def ProgramTriangle.draw {M : Type} (p : ProgramTriangle F) : List (GLCall M) :=
  let n : Nat := to_uint32 p.triangle_buffer.get_vertex_buffer_used
  [ .glDrawArrays GL_TRIANGLES 0 (to_GLsizei n) ]

/-! ## Renderer -/

/-- `Renderer::wait_next_frame`: the new state and the calls issued. -/
def Renderer.wait_next_frame {M : Type} (r : Renderer F M) : Renderer F M × List (GLCall M) :=
  ({ r with program_triangle := r.program_triangle.clear }, [ .glClear GL_COLOR_BUFFER_BIT ])

/-- The body of the loop that ends `draw_cube3d`, for index `i`. -/
def Renderer.draw_cube3d_attributes (color : Color F) (offset : Vector F) (vertices : Nat)
    (p : ProgramTriangle F) (i : Nat) : ProgramTriangle F :=
  let p := p.store vertices i (fun v => { v with offset_x := offset.x })
  let p := p.store vertices i (fun v => { v with offset_y := offset.y })
  let p := p.store vertices i (fun v => { v with r := color.r })
  let p := p.store vertices i (fun v => { v with g := color.g })
  let p := p.store vertices i (fun v => { v with b := color.b })
  p.store vertices i (fun v => { v with a := color.a })

/-- `Renderer::draw_cube3d`.  It issues no call into OpenGL; the result is the
new renderer state. -/
def Renderer.draw_cube3d {M : Type} [Add F] [Sub F] [Mul F] [OfScientific F] (g : Growth F)
    (r : Renderer F M) (rect : Cube3d F) (offset : Vector F) : Renderer F M :=
  let n_vertices : Nat := 6
  let local_pos : Vector F := rect.get_value_delta
  let (p, vertices) := r.program_triangle.alloc_vertices g n_vertices
  -- first triangle: upper left, down right, down left
  let p := p.store vertices 0 (fun v => { v with x := local_pos.x - rect.get_w * 0.5 })
  let p := p.store vertices 0 (fun v => { v with y := local_pos.y - rect.get_h * 0.5 })
  let p := p.store vertices 1 (fun v => { v with x := local_pos.x + rect.get_w * 0.5 })
  let p := p.store vertices 1 (fun v => { v with y := local_pos.y + rect.get_h * 0.5 })
  let p := p.store vertices 2 (fun v => { v with x := local_pos.x - rect.get_w * 0.5 })
  let p := p.store vertices 2 (fun v => { v with y := local_pos.y + rect.get_h * 0.5 })
  -- second triangle: upper left, upper right, down right
  let p := p.store vertices 3 (fun v => { v with x := local_pos.x - rect.get_w * 0.5 })
  let p := p.store vertices 3 (fun v => { v with y := local_pos.y - rect.get_h * 0.5 })
  let p := p.store vertices 4 (fun v => { v with x := local_pos.x + rect.get_w * 0.5 })
  let p := p.store vertices 4 (fun v => { v with y := local_pos.y - rect.get_h * 0.5 })
  let p := p.store vertices 5 (fun v => { v with x := local_pos.x + rect.get_w * 0.5 })
  let p := p.store vertices 5 (fun v => { v with y := local_pos.y + rect.get_h * 0.5 })
  let p := (List.range n_vertices).foldl (Renderer.draw_cube3d_attributes r.color offset vertices) p
  { r with program_triangle := p }

/-- `Renderer::render`: the state after the call and the calls issued. -/
def Renderer.render {M : Type} (uniform_location : Nat → String → Int) (r : Renderer F M) :
    Renderer F M × List (GLCall M) :=
  (r,
   r.program_triangle.upload_projection_matrix uniform_location r.projection_matrix
     ++ r.program_triangle.upload_vertex_buffer
     ++ r.program_triangle.draw
     ++ [ .SDL_GL_SwapWindow r.sdl_window ])

/-- The slots `[vertices, vertices + n)` of the host buffer of a renderer:
what a window returned by `alloc_vertices` holds. -/
def Renderer.window {M : Type} (r : Renderer F M) (vertices n : Nat) : List (Vertex F) :=
  (r.program_triangle.triangle_buffer.vertex_buffer.drop vertices).take n

/-- Used-count of the host buffer of a renderer. -/
def Renderer.used {M : Type} (r : Renderer F M) : Nat :=
  r.program_triangle.triangle_buffer.get_vertex_buffer_used

/-- A run of `draw_cube3d` calls, in order. -/
def Renderer.draw_all {M : Type} [Add F] [Sub F] [Mul F] [OfScientific F] (g : Growth F)
    (r : Renderer F M) (calls : List (Cube3d F × Vector F)) : Renderer F M :=
  calls.foldl (fun r c => r.draw_cube3d g c.1 c.2) r

/-- One frame: `wait_next_frame()`, the `draw_cube3d` calls, then `render()`.
The result is the final state and the calls issued by `render()`. -/
def Renderer.frame {M : Type} [Add F] [Sub F] [Mul F] [OfScientific F] (g : Growth F)
    (uniform_location : Nat → String → Int) (r : Renderer F M)
    (calls : List (Cube3d F × Vector F)) : Renderer F M × List (GLCall M) :=
  ((r.wait_next_frame.1).draw_all g calls).render uniform_location

/-- Statement-side definition: the six vertices one `draw_cube3d` call is
claimed to write, in order (corner positions, the offset of the call, the
current colour). -/
def expected_quad [Add F] [Sub F] [Mul F] [OfScientific F] (color : Color F) (rect : Cube3d F)
    (offset : Vector F) : List (Vertex F) :=
  let cx := rect.get_value_delta.x
  let cy := rect.get_value_delta.y
  let hw := rect.get_w * 0.5
  let hh := rect.get_h * 0.5
  let mk (x y : F) : Vertex F :=
    { x := x, y := y, offset_x := offset.x, offset_y := offset.y,
      r := color.r, g := color.g, b := color.b, a := color.a }
  [ mk (cx - hw) (cy - hh), mk (cx + hw) (cy + hh), mk (cx - hw) (cy + hh),
    mk (cx - hw) (cy - hh), mk (cx + hw) (cy - hh), mk (cx + hw) (cy + hh) ]


/-- Statement-side definition: the bytes `[first, last)` of a vertex that a
`glVertexAttribPointer` call declares, `size` floats from `pointer` on. -/
def GLCall.byte_range {M : Type} : GLCall M → Option (Nat × Nat)
  | .glVertexAttribPointer _ size _ _ _ pointer => some (pointer, pointer + size * sizeof_float)
  | _ => none

/-! ## Shader -/

/-- The object `Shader`. -/
structure Shader where
  shader_type : Nat
  fname : String
  shader_id : Nat
deriving DecidableEq, Repr

/-- What the driver reports after `glCompileShader` for one submitted source:
the value of `GL_COMPILE_STATUS` and the information log of the shader (`none`
when the shader has no information log). -/
structure CompileReply where
  status : Int
  info_log : Option String
deriving DecidableEq, Repr

/-- A null-terminated `char *` read as text: the characters before the first
NUL (`buffer.c_str()` handed to `glShaderSource` with a null length array). -/
def null_terminated (s : String) : String := String.mk (s.toList.takeWhile (fun c => c ≠ Char.ofNat 0))

/-- `glGetShaderiv(id, GL_INFO_LOG_LENGTH, &logSize)`: the number of characters
of the information log including the null terminator, 0 without a log. -/
def info_log_length : Option String → Nat
  | none => 0
  | some log => log.length + 1

/-- How a call of `Shader::compile` ends: it returns, it raises with a message,
or it runs into undefined behaviour (a read outside an array), after which the
program guarantees nothing. -/
inductive Outcome where
  | returned
  | raised (msg : String)
  | undefined
deriving DecidableEq, Repr

/-- `glGetShaderInfoLog(id, maxLength, nullptr, berror)` on the fresh array
`new char[maxLength]`, followed by reading `berror` as a null-terminated text.
With `maxLength > 0` at most `maxLength - 1` characters of the log are written
before the terminator, and the read gives them.  With `maxLength = 0` nothing
is written, the array has no element, and the read runs past it: `none`. -/
def glGetShaderInfoLog (info_log : Option String) (maxLength : Nat) : Option String :=
  if maxLength = 0 then none
  else some (String.mk (((info_log.getD "").toList).take (maxLength - 1)))

/-- Modelled from the spec: the macro `mylib_throw_exception_msg` (external
exception macros) raises an error whose message carries the streamed
arguments, in order; `location` is whatever text the macro puts in front of
them. -/
def mylib_throw_exception_msg (location : String) (args : List String) : Outcome :=
  .raised (location ++ String.join args)

/-- `Shader::compile`.  `file_system` gives the content of a readable file,
`driver` the answer of the GPU for a shader type and a submitted source. -/
def Shader.compile (file_system : String → Option String) (driver : Nat → String → CompileReply)
    (location : String) (sh : Shader) : Outcome :=
  let buffer : String := (file_system sh.fname).getD ""
  let c_str : String := null_terminated buffer
  -- glShaderSource, glCompileShader
  let reply : CompileReply := driver sh.shader_type c_str
  let status : Int := reply.status
  if status = (GL_FALSE : Nat) then
    let logSize : Nat := info_log_length reply.info_log
    -- char *berror = new char [logSize]; glGetShaderInfoLog(..., logSize, nullptr, berror)
    match glGetShaderInfoLog reply.info_log logSize with
    | some berror =>
      mylib_throw_exception_msg location [sh.fname, " shader compilation failed", "\n", berror]
    | none => .undefined
  else
    .returned

/-- The source a `Shader` submits to the GPU. -/
def Shader.submitted (file_system : String → Option String) (sh : Shader) : String :=
  null_terminated ((file_system sh.fname).getD "")

/-- Statement-side definition: the text `part` occurs in the text `msg`, as a
run of consecutive characters. -/
def occurs_in (part msg : String) : Prop := part.data <:+: msg.data

instance (part msg : String) : Decidable (occurs_in part msg) :=
  inferInstanceAs (Decidable (part.data <:+: msg.data))

/-! ## Concrete inputs -/

/-- Amortized doubling, fresh slots zeroed. -/
def doubling : Growth ℚ :=
  { target := fun capacity _ => 2 * capacity,
    fresh := fun _ => { x := 0, y := 0, offset_x := 0, offset_y := 0, r := 0, g := 0, b := 0, a := 0 } }

/-- A renderer whose host buffer is empty, drawing in opaque red. -/
def renderer0 : Renderer ℚ Unit :=
  { sdl_window := 1,
    program_triangle :=
      { program_id := 3, vao := 1, vbo := 1,
        triangle_buffer := { vertex_buffer := [], vertex_buffer_used := 0 } },
    projection_matrix := (),
    color := { r := 1, g := 0, b := 0, a := 1 } }

/-- The rectangle of width 4 and height 2 centred at (1, 1). -/
def rect0 : Cube3d ℚ := { value_delta := { x := 1, y := 1 }, w := 4, h := 2 }

/-- The offset (10, 20). -/
def offset0 : Vector ℚ := { x := 10, y := 20 }

/-- A driver that puts every uniform at location 0. -/
def location0 : Nat → String → Int := fun _ _ => 0

/-- The vertex shader of the triangle program. -/
def shader0 : Shader :=
  { shader_type := 0x8B31, fname := "shaders/triangles.vert", shader_id := 1 }

/-- A file system holding one file, whose text is not a valid shader. -/
def files0 : String → Option String :=
  fun path => if path = "shaders/triangles.vert" then some "void main(" else none

/-- A driver that rejects every source and keeps no information log. -/
def silent_driver : Nat → String → CompileReply :=
  fun _ _ => { status := 0, info_log := none }

/-- The number of `draw_cube3d` calls after which the host buffer holds
`2 ^ 31 + 4` vertices. -/
def many : Nat := 357913942

/-! ## Lemmas on the host buffer -/

theorem modify_append_left (f : Vertex F → Vertex F) (A rest : List (Vertex F)) (i : Nat) :
    List.modify f (A.length + i) (A ++ rest) = A ++ List.modify f i rest := by
  induction A with
  | nil => simp
  | cons a A ih =>
    have h : (a :: A).length + i = (A.length + i) + 1 := by simp; omega
    rw [h, List.cons_append, List.modify_succ_cons, ih]
    rfl

theorem reserve_length (g : Growth F) (buf : VertexBuffer F) (needed : Nat) :
    needed ≤ (buf.reserve g needed).length := by
  unfold VertexBuffer.reserve VertexBuffer.capacity
  split
  · assumption
  · simp only [List.length_append, List.length_map, List.length_range]
    omega

theorem reserve_eq_append (g : Growth F) (buf : VertexBuffer F) (needed : Nat) :
    ∃ ext, buf.reserve g needed = buf.vertex_buffer ++ ext := by
  unfold VertexBuffer.reserve
  split
  · exact ⟨[], by simp⟩
  · exact ⟨_, rfl⟩

/-- Any storage with room for six slots from `u` on splits around them. -/
theorem split_window (L : List (Vertex F)) (u : Nat) (h : u + 6 ≤ L.length) :
    ∃ v0 v1 v2 v3 v4 v5, L = L.take u ++ (v0 :: v1 :: v2 :: v3 :: v4 :: v5 :: L.drop (u + 6)) := by
  have hd : (L.drop u).length = L.length - u := List.length_drop u L
  have hdd : L.drop (u + 6) = (L.drop u).drop 6 := by
    rw [List.drop_drop]
  rw [hdd]
  generalize hD : L.drop u = D at hd
  have hL : L = L.take u ++ D := by rw [← hD, List.take_append_drop]
  match D, hd with
  | v0 :: v1 :: v2 :: v3 :: v4 :: v5 :: B, _ =>
    exact ⟨v0, v1, v2, v3, v4, v5, by simpa using hL⟩
  | [], hd => simp at hd; omega
  | [_], hd => simp at hd; omega
  | [_, _], hd => simp at hd; omega
  | [_, _, _], hd => simp at hd; omega
  | [_, _, _, _], hd => simp at hd; omega
  | [_, _, _, _, _], hd => simp at hd; omega

/-- What `draw_cube3d` does to the renderer: the six slots from the old
used-count on hold the six vertices of the rectangle, every other slot of the
(possibly grown) storage is untouched, and the used-count advanced by six. -/
theorem draw_cube3d_eq {M : Type} [Add F] [Sub F] [Mul F] [OfScientific F] (g : Growth F)
    (r : Renderer F M) (rect : Cube3d F) (offset : Vector F) :
    r.draw_cube3d g rect offset =
      { r with program_triangle :=
          { r.program_triangle with triangle_buffer :=
              { vertex_buffer :=
                  (r.program_triangle.triangle_buffer.reserve g (r.used + 6)).take r.used
                    ++ (expected_quad r.color rect offset
                    ++ (r.program_triangle.triangle_buffer.reserve g (r.used + 6)).drop (r.used + 6)),
                vertex_buffer_used := r.used + 6 } } } := by
  have hlen := reserve_length g r.program_triangle.triangle_buffer (r.used + 6)
  obtain ⟨v0, v1, v2, v3, v4, v5, hL⟩ := split_window _ _ hlen
  have hA : ((r.program_triangle.triangle_buffer.reserve g (r.used + 6)).take r.used).length
      = r.used := by
    rw [List.length_take]; omega
  have hrange : List.range 6 = [0, 1, 2, 3, 4, 5] := by decide
  simp only [Renderer.draw_cube3d, ProgramTriangle.alloc_vertices, VertexBuffer.alloc_vertices,
    ProgramTriangle.store, Renderer.draw_cube3d_attributes, hrange, List.foldl]
  simp only [Renderer.used, VertexBuffer.get_vertex_buffer_used] at hL hA ⊢
  generalize (r.program_triangle.triangle_buffer.reserve g
    (r.program_triangle.triangle_buffer.vertex_buffer_used + 6)).drop
      (r.program_triangle.triangle_buffer.vertex_buffer_used + 6) = B at hL ⊢
  generalize hAdef : (r.program_triangle.triangle_buffer.reserve g
    (r.program_triangle.triangle_buffer.vertex_buffer_used + 6)).take
      r.program_triangle.triangle_buffer.vertex_buffer_used = A at hL hA ⊢
  rw [hL, ← hA]
  simp only [modify_append_left, List.modify_succ_cons, List.modify_zero_cons]
  rfl


theorem expected_quad_length [Add F] [Sub F] [Mul F] [OfScientific F] (color : Color F)
    (rect : Cube3d F) (offset : Vector F) : (expected_quad color rect offset).length = 6 := rfl

theorem draw_cube3d_used {M : Type} [Add F] [Sub F] [Mul F] [OfScientific F] (g : Growth F)
    (r : Renderer F M) (rect : Cube3d F) (offset : Vector F) :
    (r.draw_cube3d g rect offset).used = r.used + 6 := by
  rw [draw_cube3d_eq]; rfl

theorem take_used_reserve_length (g : Growth F) (buf : VertexBuffer F) (u k : Nat) :
    ((buf.reserve g (u + k)).take u).length = u := by
  have := reserve_length g buf (u + k)
  rw [List.length_take]; omega

/-- The window returned to `draw_cube3d` holds the six vertices when the call
returns. -/
theorem draw_cube3d_window {M : Type} [Add F] [Sub F] [Mul F] [OfScientific F] (g : Growth F)
    (r : Renderer F M) (rect : Cube3d F) (offset : Vector F) :
    (r.draw_cube3d g rect offset).window r.used 6 = expected_quad r.color rect offset := by
  rw [draw_cube3d_eq]
  simp only [Renderer.window]
  rw [List.drop_left' (take_used_reserve_length g _ r.used 6),
    List.take_left' (expected_quad_length _ _ _)]

/-- Slots outside the window keep what the storage held after the allocation:
the call writes six slots and no other. -/
theorem draw_cube3d_frame {M : Type} [Add F] [Sub F] [Mul F] [OfScientific F] (g : Growth F)
    (r : Renderer F M) (rect : Cube3d F) (offset : Vector F) (i : Nat)
    (h : i < r.used ∨ r.used + 6 ≤ i) :
    (r.draw_cube3d g rect offset).program_triangle.triangle_buffer.vertex_buffer[i]? =
      (r.program_triangle.triangle_buffer.reserve g (r.used + 6))[i]? := by
  rw [draw_cube3d_eq]
  simp only
  have hA := take_used_reserve_length g r.program_triangle.triangle_buffer r.used 6
  have hlen := reserve_length g r.program_triangle.triangle_buffer (r.used + 6)
  rcases h with h | h
  · rw [List.getElem?_append_left (by omega), List.getElem?_take_of_lt h]
  · rw [List.getElem?_append_right (by omega), List.getElem?_append_right
      (by rw [expected_quad_length]; omega), hA, expected_quad_length, List.getElem?_drop]
    congr 1; omega


theorem reserve_getElem?_of_lt (g : Growth F) (buf : VertexBuffer F) (needed i : Nat)
    (h : i < buf.vertex_buffer.length) :
    (buf.reserve g needed)[i]? = buf.vertex_buffer[i]? := by
  obtain ⟨ext, hext⟩ := reserve_eq_append g buf needed
  rw [hext, List.getElem?_append_left h]

theorem half_eq_div_two (w : ℚ) : w * 0.5 = w / 2 := by
  norm_num
  ring

theorem upload_size_of_lt (n : Nat) (h : n < 2 ^ 32) :
    to_GLsizeiptr (to_size_t (sizeof_Vertex * to_uint32 n)) = ((32 * n : Nat) : Int) := by
  have h64 : 32 * n < 2 ^ 64 := by omega
  have h63 : 32 * n < 2 ^ 63 := by omega
  unfold to_GLsizeiptr to_size_t to_uint32 sizeof_Vertex
  rw [Nat.mod_eq_of_lt h, Nat.mod_eq_of_lt h64, Nat.mod_eq_of_lt h64, if_pos h63]

theorem draw_count_of_lt (n : Nat) (h : n < 2 ^ 31) :
    to_GLsizei (to_uint32 n) = (n : Int) := by
  have h32 : n < 2 ^ 32 := by omega
  unfold to_GLsizei to_uint32
  rw [Nat.mod_eq_of_lt h32, Nat.mod_eq_of_lt h32, if_pos h]

theorem alloc_keeps_slots (g : Growth F) (buf : VertexBuffer F) (n i : Nat)
    (h : i < buf.vertex_buffer.length) :
    (buf.alloc_vertices g n).1.vertex_buffer[i]? = buf.vertex_buffer[i]? :=
  reserve_getElem?_of_lt g buf _ i h

theorem alloc_capacity (g : Growth F) (buf : VertexBuffer F) (n : Nat) :
    buf.vertex_buffer_used + n ≤ (buf.alloc_vertices g n).1.capacity :=
  reserve_length g buf _

theorem alloc_capacity_mono (g : Growth F) (buf : VertexBuffer F) (n : Nat) :
    buf.capacity ≤ (buf.alloc_vertices g n).1.capacity := by
  obtain ⟨ext, hext⟩ := reserve_eq_append g buf (buf.vertex_buffer_used + n)
  simp only [VertexBuffer.alloc_vertices, VertexBuffer.capacity, hext, List.length_append]
  omega

theorem join_four (a b c d : String) : String.join [a, b, c, d] = a ++ b ++ c ++ d := by
  simp [String.join, List.foldl]

theorem info_log_read_back (log : String) :
    glGetShaderInfoLog (some log) (info_log_length (some log)) = some log := by
  unfold glGetShaderInfoLog info_log_length
  rw [if_neg (Nat.succ_ne_zero _)]
  show some (String.mk (log.data.take (log.data.length + 1 - 1))) = some log
  rw [Nat.add_sub_cancel, List.take_length]

theorem upload_count (u : Nat) :
    (to_GLsizeiptr (to_size_t (sizeof_Vertex * to_uint32 u))).toNat / sizeof_Vertex
      = to_uint32 u := by
  have hn : u % 2 ^ 32 < 2 ^ 32 := Nat.mod_lt _ (by decide)
  unfold to_uint32
  generalize u % 2 ^ 32 = n at hn
  have h := upload_size_of_lt n hn
  unfold to_uint32 at h
  rw [Nat.mod_eq_of_lt hn] at h
  rw [h, Int.toNat_ofNat]
  unfold sizeof_Vertex
  omega

/-- One `draw_cube3d` on a buffer whose used-count is within its capacity:
the used part of the storage grows by the six vertices of the rectangle. -/
theorem draw_cube3d_take {M : Type} [Add F] [Sub F] [Mul F] [OfScientific F] (g : Growth F)
    (r : Renderer F M) (rect : Cube3d F) (offset : Vector F)
    (h : r.used ≤ r.program_triangle.triangle_buffer.capacity) :
    (r.draw_cube3d g rect offset).program_triangle.triangle_buffer.vertex_buffer.take (r.used + 6) =
      r.program_triangle.triangle_buffer.vertex_buffer.take r.used
        ++ expected_quad r.color rect offset := by
  have hA := take_used_reserve_length g r.program_triangle.triangle_buffer r.used 6
  obtain ⟨ext, hext⟩ := reserve_eq_append g r.program_triangle.triangle_buffer (r.used + 6)
  have hpre : (r.program_triangle.triangle_buffer.reserve g (r.used + 6)).take r.used =
      r.program_triangle.triangle_buffer.vertex_buffer.take r.used := by
    rw [hext, List.take_append_of_le_length h]
  rw [draw_cube3d_eq]
  simp only
  rw [← List.append_assoc, List.take_left' (by rw [List.length_append, hA, expected_quad_length]),
    hpre]

theorem draw_cube3d_capacity {M : Type} [Add F] [Sub F] [Mul F] [OfScientific F] (g : Growth F)
    (r : Renderer F M) (rect : Cube3d F) (offset : Vector F) :
    (r.draw_cube3d g rect offset).used
      ≤ (r.draw_cube3d g rect offset).program_triangle.triangle_buffer.capacity := by
  have hA := take_used_reserve_length g r.program_triangle.triangle_buffer r.used 6
  rw [draw_cube3d_eq]
  simp only [Renderer.used, VertexBuffer.get_vertex_buffer_used, VertexBuffer.capacity,
    List.length_append, expected_quad_length] at hA ⊢
  omega

theorem draw_cube3d_rest {M : Type} [Add F] [Sub F] [Mul F] [OfScientific F] (g : Growth F)
    (r : Renderer F M) (rect : Cube3d F) (offset : Vector F) :
    (r.draw_cube3d g rect offset).color = r.color
    ∧ (r.draw_cube3d g rect offset).sdl_window = r.sdl_window
    ∧ (r.draw_cube3d g rect offset).projection_matrix = r.projection_matrix
    ∧ (r.draw_cube3d g rect offset).program_triangle.program_id = r.program_triangle.program_id := by
  rw [draw_cube3d_eq]
  exact ⟨rfl, rfl, rfl, rfl⟩

/-- A run of `draw_cube3d` calls appends the vertices of the rectangles, in
call order, to the used part of the host buffer. -/
theorem draw_all_spec {M : Type} [Add F] [Sub F] [Mul F] [OfScientific F] (g : Growth F)
    (calls : List (Cube3d F × Vector F)) :
    ∀ r : Renderer F M, r.used ≤ r.program_triangle.triangle_buffer.capacity →
      (r.draw_all g calls).used = r.used + 6 * calls.length
      ∧ (r.draw_all g calls).used ≤ (r.draw_all g calls).program_triangle.triangle_buffer.capacity
      ∧ (r.draw_all g calls).program_triangle.triangle_buffer.vertex_buffer.take
            (r.used + 6 * calls.length) =
          r.program_triangle.triangle_buffer.vertex_buffer.take r.used
            ++ calls.flatMap (fun c => expected_quad r.color c.1 c.2)
      ∧ (r.draw_all g calls).color = r.color
      ∧ (r.draw_all g calls).sdl_window = r.sdl_window
      ∧ (r.draw_all g calls).projection_matrix = r.projection_matrix
      ∧ (r.draw_all g calls).program_triangle.program_id = r.program_triangle.program_id := by
  induction calls with
  | nil =>
    intro r h
    refine ⟨rfl, h, ?_, rfl, rfl, rfl, rfl⟩
    simp [Renderer.draw_all]
  | cons c cs ih =>
    intro r h
    have hstep : r.draw_all g (c :: cs) = (r.draw_cube3d g c.1 c.2).draw_all g cs := by
      simp only [Renderer.draw_all, List.foldl_cons]
    obtain ⟨hu, hc, ht, hcol, hw, hm, hp⟩ :=
      ih (r.draw_cube3d g c.1 c.2) (draw_cube3d_capacity g r c.1 c.2)
    obtain ⟨kcol, kw, km, kp⟩ := draw_cube3d_rest g r c.1 c.2
    rw [hstep]
    rw [draw_cube3d_used] at hu ht
    have hlen : r.used + 6 * (c :: cs).length = r.used + 6 + 6 * cs.length := by
      simp only [List.length_cons]; omega
    refine ⟨by rw [hu, hlen], hc, ?_, by rw [hcol, kcol], by rw [hw, kw], by rw [hm, km],
      by rw [hp, kp]⟩
    rw [hlen, ht, draw_cube3d_take g r c.1 c.2 h, kcol, List.flatMap_cons, List.append_assoc]

/-- The calls issued by `render()`, spelled out. -/
theorem render_calls {M : Type} (uniform_location : Nat → String → Int) (r : Renderer F M) :
    (r.render uniform_location).2 =
      [ .glGetUniformLocation r.program_triangle.program_id "u_projection_matrix",
        .glUniformMatrix4fv (uniform_location r.program_triangle.program_id "u_projection_matrix")
          1 GL_TRUE r.projection_matrix,
        .glBufferData GL_ARRAY_BUFFER
          (to_GLsizeiptr (to_size_t (sizeof_Vertex * to_uint32 r.used))) 0 GL_DYNAMIC_DRAW,
        .glDrawArrays GL_TRIANGLES 0 (to_GLsizei (to_uint32 r.used)),
        .SDL_GL_SwapWindow r.sdl_window ] := rfl

/-- The calls issued by `render()` at the end of a frame of `calls.length`
rectangles, with the machine conversions of the counts left in place. -/
theorem frame_calls {M : Type} [Add F] [Sub F] [Mul F] [OfScientific F] (g : Growth F)
    (uniform_location : Nat → String → Int) (r : Renderer F M)
    (calls : List (Cube3d F × Vector F)) :
    (r.frame g uniform_location calls).2 =
      [ .glGetUniformLocation r.program_triangle.program_id "u_projection_matrix",
        .glUniformMatrix4fv (uniform_location r.program_triangle.program_id "u_projection_matrix")
          1 GL_TRUE r.projection_matrix,
        .glBufferData GL_ARRAY_BUFFER
          (to_GLsizeiptr (to_size_t (sizeof_Vertex * to_uint32 (6 * calls.length)))) 0
          GL_DYNAMIC_DRAW,
        .glDrawArrays GL_TRIANGLES 0 (to_GLsizei (to_uint32 (6 * calls.length))),
        .SDL_GL_SwapWindow r.sdl_window ] := by
  obtain ⟨hu, _, _, _, hw, hm, hp⟩ :=
    draw_all_spec g calls (r.wait_next_frame.1) (Nat.zero_le _)
  have h0 : (r.wait_next_frame.1).used = 0 := rfl
  rw [h0, Nat.zero_add] at hu
  simp only [Renderer.frame]
  rw [render_calls, hu, hw, hm, hp]
  rfl

/-- The storage read by the upload at the end of a frame starts with the
vertices of the rectangles of this frame, in call order. -/
theorem frame_storage {M : Type} [Add F] [Sub F] [Mul F] [OfScientific F] (g : Growth F)
    (uniform_location : Nat → String → Int) (r : Renderer F M)
    (calls : List (Cube3d F × Vector F)) :
    (r.frame g uniform_location calls).1.program_triangle.triangle_buffer.vertex_buffer.take
        (6 * calls.length) =
      calls.flatMap (fun c => expected_quad r.color c.1 c.2) := by
  obtain ⟨_, _, ht, _, _, _, _⟩ :=
    draw_all_spec g calls (r.wait_next_frame.1) (Nat.zero_le _)
  have h0 : (r.wait_next_frame.1).used = 0 := rfl
  rw [h0, Nat.zero_add, List.take_zero, List.nil_append] at ht
  exact ht

theorem quads_length [Add F] [Sub F] [Mul F] [OfScientific F] (color : Color F)
    (calls : List (Cube3d F × Vector F)) :
    (calls.flatMap (fun c => expected_quad color c.1 c.2)).length = 6 * calls.length := by
  induction calls with
  | nil => rfl
  | cons c cs ih =>
    rw [List.flatMap_cons, List.length_append, ih, expected_quad_length, List.length_cons]
    omega

/-- The vertices one `render()` uploads: the first used-count slots of the host
buffer, the used-count being read as a `uint32_t`. -/
theorem render_transferred {M : Type} (uniform_location : Nat → String → Int) (r : Renderer F M) :
    (r.render uniform_location).2.flatMap
        (fun c => c.transferred r.program_triangle.triangle_buffer.vertex_buffer) =
      r.program_triangle.triangle_buffer.vertex_buffer.take (to_uint32 r.used) := by
  rw [render_calls]
  simp only [List.flatMap_cons, List.flatMap_nil, GLCall.transferred, List.nil_append,
    List.append_nil, List.drop_zero, upload_count]

/-- The calls of one `render()` when the used-count fits the count types. -/
theorem render_calls_of_lt {M : Type} (uniform_location : Nat → String → Int) (r : Renderer F M)
    (h : r.used < 2 ^ 31) :
    (r.render uniform_location).2 =
      [ .glGetUniformLocation r.program_triangle.program_id "u_projection_matrix",
        .glUniformMatrix4fv (uniform_location r.program_triangle.program_id "u_projection_matrix")
          1 GL_TRUE r.projection_matrix,
        .glBufferData GL_ARRAY_BUFFER ((32 * r.used : Nat) : Int) 0 GL_DYNAMIC_DRAW,
        .glDrawArrays GL_TRIANGLES 0 ((r.used : Nat) : Int),
        .SDL_GL_SwapWindow r.sdl_window ] := by
  rw [render_calls, upload_size_of_lt _ (by omega), draw_count_of_lt _ h]

theorem to_uint32_of_lt (n : Nat) (h : n < 2 ^ 31) : to_uint32 n = n := by
  unfold to_uint32
  exact Nat.mod_eq_of_lt (by omega)

theorem frame_state {M : Type} [Add F] [Sub F] [Mul F] [OfScientific F] (g : Growth F)
    (uniform_location : Nat → String → Int) (r : Renderer F M)
    (calls : List (Cube3d F × Vector F)) :
    (r.frame g uniform_location calls).1 = (r.wait_next_frame.1).draw_all g calls := by
  simp only [Renderer.frame, Renderer.render]

theorem frame_used {M : Type} [Add F] [Sub F] [Mul F] [OfScientific F] (g : Growth F)
    (uniform_location : Nat → String → Int) (r : Renderer F M)
    (calls : List (Cube3d F × Vector F)) :
    (r.frame g uniform_location calls).1.used = 6 * calls.length := by
  obtain ⟨hu, _⟩ := draw_all_spec g calls (r.wait_next_frame.1) (Nat.zero_le _)
  have h0 : (r.wait_next_frame.1).used = 0 := rfl
  rw [h0, Nat.zero_add] at hu
  rw [frame_state, hu]

/-! ## The claims -/

/-- C1: for every rectangle with centre `(cx, cy) = rect.get_value_delta()`,
width `w` and height `h`, one `draw_cube3d` call writes exactly six vertex
positions into the window it allocated (the six slots from the old used-count
on; the used-count advances by six and no slot that existed outside the window
changes), in this order: upper-left, lower-right, lower-left, upper-left,
upper-right, lower-right, where upper-left is `(cx - w*0.5, cy - h*0.5)` and so
on.  Vertex 0 equals vertex 3, vertex 1 equals vertex 5, and the positions are
exactly the four corners.  The statement holds for every scalar type carrying
the operations the source uses; over the rationals `w*0.5` is `w/2`, which is
the last part. -/
theorem C1_draw_cube3d_positions {M : Type} [Add F] [Sub F] [Mul F] [OfScientific F]
    (g : Growth F) (r : Renderer F M) (rect : Cube3d F) (offset : Vector F) :
    (((r.draw_cube3d g rect offset).window r.used 6).map (fun v => (v.x, v.y)) =
        [ (rect.get_value_delta.x - rect.get_w * 0.5, rect.get_value_delta.y - rect.get_h * 0.5),
          (rect.get_value_delta.x + rect.get_w * 0.5, rect.get_value_delta.y + rect.get_h * 0.5),
          (rect.get_value_delta.x - rect.get_w * 0.5, rect.get_value_delta.y + rect.get_h * 0.5),
          (rect.get_value_delta.x - rect.get_w * 0.5, rect.get_value_delta.y - rect.get_h * 0.5),
          (rect.get_value_delta.x + rect.get_w * 0.5, rect.get_value_delta.y - rect.get_h * 0.5),
          (rect.get_value_delta.x + rect.get_w * 0.5, rect.get_value_delta.y + rect.get_h * 0.5) ])
    ∧ ((r.draw_cube3d g rect offset).window r.used 6).length = 6
    ∧ (r.draw_cube3d g rect offset).used = r.used + 6
    ∧ (∀ i, i < r.program_triangle.triangle_buffer.capacity → (i < r.used ∨ r.used + 6 ≤ i) →
        (r.draw_cube3d g rect offset).program_triangle.triangle_buffer.vertex_buffer[i]? =
          r.program_triangle.triangle_buffer.vertex_buffer[i]?)
    ∧ (((r.draw_cube3d g rect offset).window r.used 6).map (fun v => (v.x, v.y)))[0]? =
        (((r.draw_cube3d g rect offset).window r.used 6).map (fun v => (v.x, v.y)))[3]?
    ∧ (((r.draw_cube3d g rect offset).window r.used 6).map (fun v => (v.x, v.y)))[1]? =
        (((r.draw_cube3d g rect offset).window r.used 6).map (fun v => (v.x, v.y)))[5]?
    ∧ (∀ p : F × F,
        p ∈ ((r.draw_cube3d g rect offset).window r.used 6).map (fun v => (v.x, v.y)) ↔
        p ∈ [ (rect.get_value_delta.x - rect.get_w * 0.5, rect.get_value_delta.y - rect.get_h * 0.5),
              (rect.get_value_delta.x + rect.get_w * 0.5, rect.get_value_delta.y - rect.get_h * 0.5),
              (rect.get_value_delta.x - rect.get_w * 0.5, rect.get_value_delta.y + rect.get_h * 0.5),
              (rect.get_value_delta.x + rect.get_w * 0.5, rect.get_value_delta.y + rect.get_h * 0.5) ])
    ∧ (∀ (g' : Growth ℚ) (r' : Renderer ℚ M) (rect' : Cube3d ℚ) (offset' : Vector ℚ),
        ((r'.draw_cube3d g' rect' offset').window r'.used 6).map (fun v => (v.x, v.y)) =
          [ (rect'.get_value_delta.x - rect'.get_w / 2, rect'.get_value_delta.y - rect'.get_h / 2),
            (rect'.get_value_delta.x + rect'.get_w / 2, rect'.get_value_delta.y + rect'.get_h / 2),
            (rect'.get_value_delta.x - rect'.get_w / 2, rect'.get_value_delta.y + rect'.get_h / 2),
            (rect'.get_value_delta.x - rect'.get_w / 2, rect'.get_value_delta.y - rect'.get_h / 2),
            (rect'.get_value_delta.x + rect'.get_w / 2, rect'.get_value_delta.y - rect'.get_h / 2),
            (rect'.get_value_delta.x + rect'.get_w / 2, rect'.get_value_delta.y + rect'.get_h / 2) ]) := by
  refine ⟨?_, ?_, draw_cube3d_used g r rect offset, ?_, ?_, ?_, ?_, ?_⟩
  · rw [draw_cube3d_window]; rfl
  · rw [draw_cube3d_window]; rfl
  · intro i hi h
    rw [draw_cube3d_frame g r rect offset i h]
    exact reserve_getElem?_of_lt g _ _ i hi
  · rw [draw_cube3d_window]; rfl
  · rw [draw_cube3d_window]; rfl
  · intro p
    rw [draw_cube3d_window]
    simp only [expected_quad, List.map_cons, List.map_nil, List.mem_cons, List.mem_singleton,
      List.mem_nil_iff, or_false]
    tauto
  · intro g' r' rect' offset'
    rw [draw_cube3d_window]
    simp only [expected_quad, List.map_cons, List.map_nil, half_eq_div_two]

/-- C2: all six vertices written by one `draw_cube3d` call carry the offset of
the call and the current colour of the renderer in their offset and colour
fields, whatever the rectangle: two calls that differ only in the rectangle
write the same offset and colour fields. -/
theorem C2_draw_cube3d_offset_colour {M : Type} [Add F] [Sub F] [Mul F] [OfScientific F]
    (g : Growth F) (r : Renderer F M) (rect : Cube3d F) (offset : Vector F) :
    ((r.draw_cube3d g rect offset).window r.used 6).length = 6
    ∧ (∀ v ∈ (r.draw_cube3d g rect offset).window r.used 6,
        v.offset_x = offset.x ∧ v.offset_y = offset.y ∧
        v.r = r.color.r ∧ v.g = r.color.g ∧ v.b = r.color.b ∧ v.a = r.color.a)
    ∧ ((r.draw_cube3d g rect offset).window r.used 6).map
          (fun v => (v.offset_x, v.offset_y, v.r, v.g, v.b, v.a)) =
        List.replicate 6 (offset.x, offset.y, r.color.r, r.color.g, r.color.b, r.color.a)
    ∧ (∀ rect2 : Cube3d F,
        ((r.draw_cube3d g rect2 offset).window r.used 6).map
            (fun v => (v.offset_x, v.offset_y, v.r, v.g, v.b, v.a)) =
          ((r.draw_cube3d g rect offset).window r.used 6).map
            (fun v => (v.offset_x, v.offset_y, v.r, v.g, v.b, v.a))) := by
  refine ⟨?_, ?_, ?_, ?_⟩
  · rw [draw_cube3d_window]; rfl
  · intro v hv
    rw [draw_cube3d_window] at hv
    simp only [expected_quad, List.mem_cons, List.mem_singleton, List.mem_nil_iff, or_false] at hv
    rcases hv with h | h | h | h | h | h <;> subst h <;> exact ⟨rfl, rfl, rfl, rfl, rfl, rfl⟩
  · rw [draw_cube3d_window]; rfl
  · intro rect2
    rw [draw_cube3d_window, draw_cube3d_window]; rfl


/-- C3: whatever number of vertices has been accumulated, the used-count of the
host buffer is 0 when `wait_next_frame()` returns; the storage and its capacity
are retained, and the one call issued is the clear of the colour buffer. -/
theorem C3_wait_next_frame_resets {M : Type} (r : Renderer F M) :
    (r.wait_next_frame.1).used = 0
    ∧ (r.wait_next_frame.1).program_triangle.triangle_buffer.vertex_buffer =
        r.program_triangle.triangle_buffer.vertex_buffer
    ∧ (r.wait_next_frame.1).program_triangle.triangle_buffer.capacity =
        r.program_triangle.triangle_buffer.capacity
    ∧ r.wait_next_frame.2 = [ .glClear GL_COLOR_BUFFER_BIT ] :=
  ⟨rfl, rfl, rfl, rfl⟩

/-- C4: `alloc_vertices(a)` then `alloc_vertices(b)` with no clear in between,
starting from used-count `u`, return the windows `[u, u+a)` and
`[u+a, u+a+b)`; both lie inside the storage, no slot belongs to both, the
used-count ends at `u + a + b` (`a + b` right after a clear), and the second
call leaves every slot that existed after the first, so also the slots of the
first window, with the contents it had; the same holds when the slots were
written in between (any buffer state `written`). -/
theorem C4_alloc_vertices_twice (g : Growth F) (buf : VertexBuffer F) (a b : Nat) :
    (buf.alloc_vertices g a).2 = buf.vertex_buffer_used
    ∧ ((buf.alloc_vertices g a).1.alloc_vertices g b).2 = buf.vertex_buffer_used + a
    ∧ ((buf.alloc_vertices g a).1.alloc_vertices g b).1.vertex_buffer_used
        = buf.vertex_buffer_used + a + b
    ∧ ((buf.clear.alloc_vertices g a).1.alloc_vertices g b).1.vertex_buffer_used = a + b
    ∧ (buf.alloc_vertices g a).2 + a ≤ (buf.alloc_vertices g a).1.capacity
    ∧ (buf.alloc_vertices g a).2 + a ≤ ((buf.alloc_vertices g a).1.alloc_vertices g b).1.capacity
    ∧ ((buf.alloc_vertices g a).1.alloc_vertices g b).2 + b
        ≤ ((buf.alloc_vertices g a).1.alloc_vertices g b).1.capacity
    ∧ (∀ i, (buf.alloc_vertices g a).2 ≤ i ∧ i < (buf.alloc_vertices g a).2 + a →
        ¬ (((buf.alloc_vertices g a).1.alloc_vertices g b).2 ≤ i ∧
           i < ((buf.alloc_vertices g a).1.alloc_vertices g b).2 + b))
    ∧ (∀ i, i < (buf.alloc_vertices g a).1.capacity →
        ((buf.alloc_vertices g a).1.alloc_vertices g b).1.vertex_buffer[i]? =
          (buf.alloc_vertices g a).1.vertex_buffer[i]?)
    ∧ (((buf.alloc_vertices g a).1.alloc_vertices g b).1.vertex_buffer.drop
          (buf.alloc_vertices g a).2).take a =
        ((buf.alloc_vertices g a).1.vertex_buffer.drop (buf.alloc_vertices g a).2).take a
    ∧ (∀ (written : VertexBuffer F) (i : Nat), i < written.capacity →
        (written.alloc_vertices g b).1.vertex_buffer[i]? = written.vertex_buffer[i]?) := by
  have hcap1 := alloc_capacity g buf a
  have hcap2 := alloc_capacity g (buf.alloc_vertices g a).1 b
  have hmono := alloc_capacity_mono g (buf.alloc_vertices g a).1 b
  have hpre : ∀ i, i < (buf.alloc_vertices g a).1.capacity →
      ((buf.alloc_vertices g a).1.alloc_vertices g b).1.vertex_buffer[i]? =
        (buf.alloc_vertices g a).1.vertex_buffer[i]? :=
    fun i hi => alloc_keeps_slots g _ b i hi
  refine ⟨rfl, rfl, rfl, ?_, hcap1, ?_, hcap2, ?_, hpre, ?_,
    fun written i hi => alloc_keeps_slots g written b i hi⟩
  · simp [VertexBuffer.alloc_vertices, VertexBuffer.clear]
  · exact Nat.le_trans hcap1 hmono
  · intro i hi hi2
    have h2 : ((buf.alloc_vertices g a).1.alloc_vertices g b).2 = buf.vertex_buffer_used + a := rfl
    have h1 : (buf.alloc_vertices g a).2 = buf.vertex_buffer_used := rfl
    omega
  · obtain ⟨ext, hext⟩ := reserve_eq_append g (buf.alloc_vertices g a).1
      ((buf.alloc_vertices g a).1.vertex_buffer_used + b)
    have hv : ((buf.alloc_vertices g a).1.alloc_vertices g b).1.vertex_buffer =
        (buf.alloc_vertices g a).1.vertex_buffer ++ ext := hext
    have h1 : (buf.alloc_vertices g a).2 = buf.vertex_buffer_used := rfl
    have hu : (buf.alloc_vertices g a).1.vertex_buffer_used = buf.vertex_buffer_used + a := rfl
    rw [hv, h1]
    apply List.ext_getElem?
    intro i
    simp only [List.getElem?_take, List.getElem?_drop]
    split
    · rw [List.getElem?_append_left]
      simp only [VertexBuffer.capacity, hu] at hcap1
      omega
    · rfl

/-- C5: for every host buffer whose used-count `n` is a `uint32_t` value,
`upload_vertex_buffer()` issues exactly one `glBufferData` on
`GL_ARRAY_BUFFER` of byte size `32 * n`, reading from the first vertex of the
host buffer, with `GL_DYNAMIC_DRAW`; the vertices read are the first `n` slots;
the call depends on the used-count only (two buffers with the same used-count
and any capacities give the same call); and after `m` vertices (any `m`, so
also `m > n`), a clear and `n` new vertices, the upload has size `32 * n` and
reads `n` vertices. -/
theorem C5_upload_vertex_buffer {M : Type} (g : Growth F) (p p0 : ProgramTriangle F) (m n : Nat)
    (hused : p.triangle_buffer.get_vertex_buffer_used < 2 ^ 32) (hn : n < 2 ^ 32) :
    (p.upload_vertex_buffer : List (GLCall M)) =
        [ .glBufferData GL_ARRAY_BUFFER ((32 * p.triangle_buffer.get_vertex_buffer_used : Nat) : Int)
            0 GL_DYNAMIC_DRAW ]
    ∧ sizeof_Vertex * p.triangle_buffer.get_vertex_buffer_used
        = 32 * p.triangle_buffer.get_vertex_buffer_used
    ∧ (∀ c ∈ (p.upload_vertex_buffer : List (GLCall M)),
        c.transferred p.triangle_buffer.vertex_buffer =
          p.triangle_buffer.vertex_buffer.take p.triangle_buffer.get_vertex_buffer_used)
    ∧ (∀ q : ProgramTriangle F,
        q.triangle_buffer.get_vertex_buffer_used = p.triangle_buffer.get_vertex_buffer_used →
        (q.upload_vertex_buffer : List (GLCall M)) = p.upload_vertex_buffer)
    ∧ (((((p0.clear.alloc_vertices g m).1.clear).alloc_vertices g n).1.upload_vertex_buffer :
          List (GLCall M)) =
        [ .glBufferData GL_ARRAY_BUFFER ((32 * n : Nat) : Int) 0 GL_DYNAMIC_DRAW ])
    ∧ (∀ c ∈ (((((p0.clear.alloc_vertices g m).1.clear).alloc_vertices g n).1.upload_vertex_buffer :
          List (GLCall M))),
        (c.transferred
          (((p0.clear.alloc_vertices g m).1.clear).alloc_vertices g n).1.triangle_buffer.vertex_buffer).length
          = n) := by
  have hup : ∀ q : ProgramTriangle F, q.triangle_buffer.get_vertex_buffer_used < 2 ^ 32 →
      (q.upload_vertex_buffer : List (GLCall M)) =
        [ .glBufferData GL_ARRAY_BUFFER ((32 * q.triangle_buffer.get_vertex_buffer_used : Nat) : Int)
            0 GL_DYNAMIC_DRAW ] := by
    intro q hq
    simp only [ProgramTriangle.upload_vertex_buffer, upload_size_of_lt _ hq,
      VertexBuffer.get_vertex_buffer]
  have htr : ∀ (L : List (Vertex F)) (k : Nat),
      (GLCall.glBufferData GL_ARRAY_BUFFER ((32 * k : Nat) : Int) 0 GL_DYNAMIC_DRAW :
        GLCall M).transferred L = L.take k := by
    intro L k
    simp only [GLCall.transferred, sizeof_Vertex, Int.toNat_ofNat, List.drop_zero]
    congr 1
    omega
  have hscen : (((p0.clear.alloc_vertices g m).1.clear).alloc_vertices g n).1.triangle_buffer.get_vertex_buffer_used
      = n := by
    simp [ProgramTriangle.alloc_vertices, ProgramTriangle.clear, VertexBuffer.alloc_vertices,
      VertexBuffer.clear, VertexBuffer.get_vertex_buffer_used]
  refine ⟨hup p hused, rfl, ?_, ?_, ?_, ?_⟩
  · intro c hc
    rw [hup p hused, List.mem_singleton] at hc
    rw [hc, htr]
  · intro q hq
    rw [hup p hused, hup q (hq ▸ hused), hq]
  · rw [hup _ (by rw [hscen]; exact hn), hscen]
  · intro c hc
    rw [hup _ (by rw [hscen]; exact hn), hscen, List.mem_singleton] at hc
    rw [hc, htr, List.length_take]
    have := alloc_capacity g ((p0.clear.alloc_vertices g m).1.clear).triangle_buffer n
    have hz : ((p0.clear.alloc_vertices g m).1.clear).triangle_buffer.vertex_buffer_used = 0 := rfl
    rw [hz] at this
    simp only [VertexBuffer.capacity] at this
    have heq : (((p0.clear.alloc_vertices g m).1.clear).alloc_vertices g n).1.triangle_buffer
        = (((p0.clear.alloc_vertices g m).1.clear).triangle_buffer.alloc_vertices g n).1 := rfl
    rw [heq]
    omega

/-- C6: one `render()` call issues, in this order and nothing else: the
projection-matrix uniform upload (the lookup of the location of
`u_projection_matrix`, then `glUniformMatrix4fv` of one matrix with the
transpose flag `GL_TRUE`), the vertex-buffer upload (`glBufferData`), one
`glDrawArrays` of `GL_TRIANGLES` starting at vertex 0, and one
`SDL_GL_SwapWindow`.  The lookup is a query; the commands that change the GPU
or the window are the four steps. -/
theorem C6_render_sequence {M : Type} (uniform_location : Nat → String → Int) (r : Renderer F M) :
    (r.render uniform_location).2 =
        [ .glGetUniformLocation r.program_triangle.program_id "u_projection_matrix",
          .glUniformMatrix4fv (uniform_location r.program_triangle.program_id "u_projection_matrix")
            1 GL_TRUE r.projection_matrix,
          .glBufferData GL_ARRAY_BUFFER
            (to_GLsizeiptr (to_size_t (sizeof_Vertex * to_uint32 r.used))) 0 GL_DYNAMIC_DRAW,
          .glDrawArrays GL_TRIANGLES 0 (to_GLsizei (to_uint32 r.used)),
          .SDL_GL_SwapWindow r.sdl_window ]
    ∧ (r.render uniform_location).2 =
        r.program_triangle.upload_projection_matrix uniform_location r.projection_matrix
          ++ r.program_triangle.upload_vertex_buffer
          ++ r.program_triangle.draw
          ++ [ .SDL_GL_SwapWindow r.sdl_window ]
    ∧ ((r.render uniform_location).2.filter (fun c => !c.is_query)) =
        [ .glUniformMatrix4fv (uniform_location r.program_triangle.program_id "u_projection_matrix")
            1 GL_TRUE r.projection_matrix,
          .glBufferData GL_ARRAY_BUFFER
            (to_GLsizeiptr (to_size_t (sizeof_Vertex * to_uint32 r.used))) 0 GL_DYNAMIC_DRAW,
          .glDrawArrays GL_TRIANGLES 0 (to_GLsizei (to_uint32 r.used)),
          .SDL_GL_SwapWindow r.sdl_window ]
    ∧ (r.render uniform_location).2.length = 5 :=
  ⟨rfl, rfl, rfl, rfl⟩


/-- C7: the code at the input where the claim breaks.  For a source the driver
rejects (`GL_COMPILE_STATUS` is `GL_FALSE`) while it keeps no information log
(`GL_INFO_LOG_LENGTH` is 0), `Shader::compile()` allocates `new char[0]`, has
nothing written into it and streams it as a null-terminated text: it reads
outside the array instead of raising the error with the path of the file.
This holds at the concrete shader `shaders/triangles.vert` and for every
shader, file system and driver giving such a reply.  Everywhere else the claim
holds: with status `GL_FALSE` and an information log, however short, the call
raises a message containing the path and the log text, and with any other
status, `GL_TRUE` included, it returns normally. -/
theorem C7_compile_without_log_undefined :
    shader0.compile files0 silent_driver "" = Outcome.undefined
    ∧ (silent_driver shader0.shader_type (shader0.submitted files0)).status = (GL_FALSE : Nat)
    ∧ info_log_length (silent_driver shader0.shader_type (shader0.submitted files0)).info_log = 0
    ∧ (∀ (file_system : String → Option String) (driver : Nat → String → CompileReply)
        (location : String) (sh : Shader),
        (driver sh.shader_type (sh.submitted file_system)).status = (GL_FALSE : Nat) →
        (driver sh.shader_type (sh.submitted file_system)).info_log = none →
        sh.compile file_system driver location = Outcome.undefined)
    ∧ (∀ (file_system : String → Option String) (driver : Nat → String → CompileReply)
        (location : String) (sh : Shader) (log : String),
        (driver sh.shader_type (sh.submitted file_system)).status = (GL_FALSE : Nat) →
        (driver sh.shader_type (sh.submitted file_system)).info_log = some log →
        ∃ msg, sh.compile file_system driver location = Outcome.raised msg
          ∧ occurs_in sh.fname msg ∧ occurs_in log msg)
    ∧ (∀ (file_system : String → Option String) (driver : Nat → String → CompileReply)
        (location : String) (sh : Shader),
        (driver sh.shader_type (sh.submitted file_system)).status ≠ (GL_FALSE : Nat) →
        sh.compile file_system driver location = Outcome.returned)
    ∧ (∀ (file_system : String → Option String) (driver : Nat → String → CompileReply)
        (location : String) (sh : Shader),
        (driver sh.shader_type (sh.submitted file_system)).status = (GL_TRUE : Nat) →
        sh.compile file_system driver location = Outcome.returned) := by
  have hnone : ∀ (file_system : String → Option String) (driver : Nat → String → CompileReply)
      (location : String) (sh : Shader),
      (driver sh.shader_type (sh.submitted file_system)).status = (GL_FALSE : Nat) →
      (driver sh.shader_type (sh.submitted file_system)).info_log = none →
      sh.compile file_system driver location = Outcome.undefined := by
    intro file_system driver location sh h hlog
    simp only [Shader.submitted] at h hlog
    simp only [Shader.compile, h, if_true, hlog, info_log_length, glGetShaderInfoLog]
  have hok : ∀ (file_system : String → Option String) (driver : Nat → String → CompileReply)
      (location : String) (sh : Shader),
      (driver sh.shader_type (sh.submitted file_system)).status ≠ (GL_FALSE : Nat) →
      sh.compile file_system driver location = Outcome.returned := by
    intro file_system driver location sh h
    simp only [Shader.submitted] at h
    simp only [Shader.compile, h, if_false]
  refine ⟨hnone files0 silent_driver "" shader0 rfl rfl, rfl, rfl, hnone, ?_, hok, ?_⟩
  · intro file_system driver location sh log h hlog
    refine ⟨location ++ String.join [sh.fname, " shader compilation failed", "\n", log], ?_, ?_, ?_⟩
    · simp only [Shader.submitted] at h hlog
      simp only [Shader.compile, h, if_true, hlog, info_log_read_back, mylib_throw_exception_msg]
    · refine ⟨location.data, (" shader compilation failed" ++ "\n" ++ log).data, ?_⟩
      rw [join_four]
      simp only [String.data_append, List.append_assoc]
    · refine ⟨(location ++ sh.fname ++ " shader compilation failed" ++ "\n").data, [], ?_⟩
      rw [join_four]
      simp only [String.data_append, List.append_assoc, List.append_nil]
  · intro file_system driver location sh h
    apply hok
    rw [h]
    decide

/-- C8: `setup_vertex_array()` enables the three attribute slots and declares
three float attributes, each with stride 32 bytes: Position with 2 components
at byte offset 0, Offset with 2 components at byte offset 8, Color with 4
components at byte offset 16.  The byte ranges they declare are `[0,8)`,
`[8,16)`, `[16,32)`: every byte of the 32-byte vertex (8 floats of 4 bytes)
lies in exactly one of them and no byte beyond it lies in any. -/
theorem C8_setup_vertex_array_layout {M : Type} :
    (ProgramTriangle.setup_vertex_array : List (GLCall M)) =
        [ .glEnableVertexAttribArray 0,
          .glEnableVertexAttribArray 1,
          .glEnableVertexAttribArray 2,
          .glVertexAttribPointer 0 2 GL_FLOAT GL_FALSE 32 0,
          .glVertexAttribPointer 1 2 GL_FLOAT GL_FALSE 32 8,
          .glVertexAttribPointer 2 4 GL_FLOAT GL_FALSE 32 16 ]
    ∧ Attrib.Position.to_underlying = 0 ∧ Attrib.Offset.to_underlying = 1
    ∧ Attrib.Color.to_underlying = 2
    ∧ (ProgramTriangle.setup_vertex_array : List (GLCall M)).filterMap GLCall.byte_range =
        [ (0, 8), (8, 16), (16, 32) ]
    ∧ (∀ b, b < 32 →
        (((ProgramTriangle.setup_vertex_array : List (GLCall M)).filterMap GLCall.byte_range).filter
          (fun range => decide (range.1 ≤ b ∧ b < range.2))).length = 1)
    ∧ (∀ b, 32 ≤ b →
        (((ProgramTriangle.setup_vertex_array : List (GLCall M)).filterMap GLCall.byte_range).filter
          (fun range => decide (range.1 ≤ b ∧ b < range.2))).length = 0)
    ∧ sizeof_Vertex = 32 ∧ sizeof_Vertex = 8 * sizeof_float := by
  have hr : (ProgramTriangle.setup_vertex_array : List (GLCall M)).filterMap GLCall.byte_range =
      [ (0, 8), (8, 16), (16, 32) ] := rfl
  refine ⟨rfl, rfl, rfl, rfl, hr, ?_, ?_, rfl, rfl⟩
  · intro b hb
    rw [hr]
    interval_cases b <;> rfl
  · intro b hb
    rw [hr]
    have h1 : ¬ b < 8 := by omega
    have h2 : ¬ b < 16 := by omega
    have h3 : ¬ b < 32 := by omega
    simp [List.filter, h1, h2, h3]

/-- C10: `render()` leaves the renderer, so the host vertex buffer, its
used-count and every vertex in it, unchanged.  A second `render()` with no
`wait_next_frame()` in between issues the five calls again, with the same
arguments as the first: it uploads the first used-count slots of the host
buffer (`32 * used` bytes) and draws used-count vertices, the used-count being
read as a `uint32_t` and passed as a `GLsizei`; below `2 ^ 31` vertices these
are the used-count itself.  After a frame of `k` rectangles the second
`render()` uploads the `6 * k` vertices of those rectangles once more and draws
`6 * k` vertices: the stale geometry is redrawn.  Only `wait_next_frame()`
resets the count: the render after it uploads 0 bytes and draws 0 vertices. -/
theorem C10_render_keeps_host_buffer {M : Type} [Add F] [Sub F] [Mul F] [OfScientific F]
    (g : Growth F) (uniform_location : Nat → String → Int) (r : Renderer F M)
    (calls : List (Cube3d F × Vector F)) :
    (r.render uniform_location).1 = r
    ∧ (r.render uniform_location).1.used = r.used
    ∧ (r.render uniform_location).1.program_triangle.triangle_buffer.vertex_buffer =
        r.program_triangle.triangle_buffer.vertex_buffer
    ∧ ((r.render uniform_location).1.render uniform_location).2 = (r.render uniform_location).2
    ∧ ((r.render uniform_location).1.render uniform_location).2 =
        [ .glGetUniformLocation r.program_triangle.program_id "u_projection_matrix",
          .glUniformMatrix4fv (uniform_location r.program_triangle.program_id "u_projection_matrix")
            1 GL_TRUE r.projection_matrix,
          .glBufferData GL_ARRAY_BUFFER
            (to_GLsizeiptr (to_size_t (sizeof_Vertex * to_uint32 r.used))) 0 GL_DYNAMIC_DRAW,
          .glDrawArrays GL_TRIANGLES 0 (to_GLsizei (to_uint32 r.used)),
          .SDL_GL_SwapWindow r.sdl_window ]
    ∧ ((r.render uniform_location).1.render uniform_location).2.flatMap
          (fun c => c.transferred
            (r.render uniform_location).1.program_triangle.triangle_buffer.vertex_buffer) =
        r.program_triangle.triangle_buffer.vertex_buffer.take (to_uint32 r.used)
    ∧ (r.render uniform_location).2.flatMap
          (fun c => c.transferred r.program_triangle.triangle_buffer.vertex_buffer) =
        r.program_triangle.triangle_buffer.vertex_buffer.take (to_uint32 r.used)
    ∧ (r.used < 2 ^ 31 →
        ((r.render uniform_location).1.render uniform_location).2 =
          [ .glGetUniformLocation r.program_triangle.program_id "u_projection_matrix",
            .glUniformMatrix4fv
              (uniform_location r.program_triangle.program_id "u_projection_matrix")
              1 GL_TRUE r.projection_matrix,
            .glBufferData GL_ARRAY_BUFFER ((32 * r.used : Nat) : Int) 0 GL_DYNAMIC_DRAW,
            .glDrawArrays GL_TRIANGLES 0 ((r.used : Nat) : Int),
            .SDL_GL_SwapWindow r.sdl_window ]
        ∧ ((r.render uniform_location).1.render uniform_location).2.flatMap
              (fun c => c.transferred
                (r.render uniform_location).1.program_triangle.triangle_buffer.vertex_buffer) =
            r.program_triangle.triangle_buffer.vertex_buffer.take r.used)
    ∧ (6 * calls.length < 2 ^ 31 →
        ((r.frame g uniform_location calls).1.render uniform_location).2 =
          [ .glGetUniformLocation r.program_triangle.program_id "u_projection_matrix",
            .glUniformMatrix4fv
              (uniform_location r.program_triangle.program_id "u_projection_matrix")
              1 GL_TRUE r.projection_matrix,
            .glBufferData GL_ARRAY_BUFFER ((192 * calls.length : Nat) : Int) 0 GL_DYNAMIC_DRAW,
            .glDrawArrays GL_TRIANGLES 0 ((6 * calls.length : Nat) : Int),
            .SDL_GL_SwapWindow r.sdl_window ]
        ∧ ((r.frame g uniform_location calls).1.render uniform_location).2.flatMap
              (fun c => c.transferred
                ((r.frame g uniform_location calls).1.render
                  uniform_location).1.program_triangle.triangle_buffer.vertex_buffer) =
            calls.flatMap (fun c => expected_quad r.color c.1 c.2))
    ∧ (((r.render uniform_location).1.render uniform_location).1.wait_next_frame.1).used = 0
    ∧ ((((r.render uniform_location).1.render uniform_location).1.wait_next_frame.1).render
          uniform_location).2 =
        [ .glGetUniformLocation r.program_triangle.program_id "u_projection_matrix",
          .glUniformMatrix4fv (uniform_location r.program_triangle.program_id "u_projection_matrix")
            1 GL_TRUE r.projection_matrix,
          .glBufferData GL_ARRAY_BUFFER 0 0 GL_DYNAMIC_DRAW,
          .glDrawArrays GL_TRIANGLES 0 0,
          .SDL_GL_SwapWindow r.sdl_window ] := by
  have hsame : (r.render uniform_location).1 = r := rfl
  refine ⟨rfl, rfl, rfl, rfl, ?_, ?_, render_transferred uniform_location r, ?_, ?_, rfl, ?_⟩
  · rw [hsame, render_calls]
  · rw [hsame, render_transferred]
  · intro h
    rw [hsame]
    refine ⟨render_calls_of_lt uniform_location r h, ?_⟩
    rw [render_transferred, to_uint32_of_lt _ h]
  · intro h
    have hfr : ((r.frame g uniform_location calls).1.render uniform_location).1 =
        (r.frame g uniform_location calls).1 := rfl
    have hu := frame_used g uniform_location r calls
    obtain ⟨_, _, _, _, hw, hm, hp⟩ :=
      draw_all_spec g calls (r.wait_next_frame.1) (Nat.zero_le _)
    rw [← frame_state g uniform_location r calls] at hw hm hp
    refine ⟨?_, ?_⟩
    · rw [render_calls_of_lt uniform_location _ (by rw [hu]; exact h), hu, hw, hm, hp]
      have h192 : 32 * (6 * calls.length) = 192 * calls.length := by omega
      rw [h192]
      rfl
    · rw [hfr, render_transferred, hu, to_uint32_of_lt _ h]
      exact frame_storage g uniform_location r calls
  · have h0 : (((r.render uniform_location).1.render uniform_location).1.wait_next_frame.1).used
        = 0 := rfl
    rw [render_calls_of_lt uniform_location _ (by rw [h0]; decide), h0]
    rfl

/-- C10 at a frame of two rectangles: the second `render()` uploads the same
384 bytes and draws the same 12 vertices. -/
theorem C10_render_keeps_host_buffer_witness :
    6 * [(rect0, offset0), (rect0, offset0)].length < 2 ^ 31
    ∧ ((renderer0.frame doubling location0 [(rect0, offset0), (rect0, offset0)]).1.render
          location0).2 =
        [ .glGetUniformLocation 3 "u_projection_matrix",
          .glUniformMatrix4fv 0 1 GL_TRUE (),
          .glBufferData GL_ARRAY_BUFFER 384 0 GL_DYNAMIC_DRAW,
          .glDrawArrays GL_TRIANGLES 0 12,
          .SDL_GL_SwapWindow 1 ] :=
  ⟨by decide,
   ((C10_render_keeps_host_buffer doubling location0 renderer0
      [(rect0, offset0), (rect0, offset0)]).2.2.2.2.2.2.2.2.1 (by decide)).1⟩

/-- C9, as amended: for every frame of `k` `draw_cube3d` calls with
`6 * k < 2 ^ 31` (`wait_next_frame()`, the calls, `render()`), `render()`
uploads exactly `6 * k` vertices (`192 * k` bytes), which are the vertices of
the `k` rectangles in call order and nothing else, and issues exactly one draw
call, whose vertex count is `6 * k`, the uploaded count and three times
`2 * k`. -/
theorem C9_frame_upload_and_draw {M : Type} [Add F] [Sub F] [Mul F] [OfScientific F]
    (g : Growth F) (uniform_location : Nat → String → Int) (r : Renderer F M)
    (calls : List (Cube3d F × Vector F)) (h : 6 * calls.length < 2 ^ 31) :
    (r.frame g uniform_location calls).2 =
        [ .glGetUniformLocation r.program_triangle.program_id "u_projection_matrix",
          .glUniformMatrix4fv (uniform_location r.program_triangle.program_id "u_projection_matrix")
            1 GL_TRUE r.projection_matrix,
          .glBufferData GL_ARRAY_BUFFER ((192 * calls.length : Nat) : Int) 0 GL_DYNAMIC_DRAW,
          .glDrawArrays GL_TRIANGLES 0 ((6 * calls.length : Nat) : Int),
          .SDL_GL_SwapWindow r.sdl_window ]
    ∧ (r.frame g uniform_location calls).2.flatMap
          (fun c => c.transferred
            (r.frame g uniform_location calls).1.program_triangle.triangle_buffer.vertex_buffer) =
        calls.flatMap (fun c => expected_quad r.color c.1 c.2)
    ∧ (calls.flatMap (fun c => expected_quad r.color c.1 c.2)).length = 6 * calls.length
    ∧ 192 * calls.length = sizeof_Vertex * (6 * calls.length)
    ∧ 6 * calls.length = 3 * (2 * calls.length) := by
  have h32 : 6 * calls.length < 2 ^ 32 := by omega
  have hcalls : (r.frame g uniform_location calls).2 =
      [ .glGetUniformLocation r.program_triangle.program_id "u_projection_matrix",
        .glUniformMatrix4fv (uniform_location r.program_triangle.program_id "u_projection_matrix")
          1 GL_TRUE r.projection_matrix,
        .glBufferData GL_ARRAY_BUFFER ((192 * calls.length : Nat) : Int) 0 GL_DYNAMIC_DRAW,
        .glDrawArrays GL_TRIANGLES 0 ((6 * calls.length : Nat) : Int),
        .SDL_GL_SwapWindow r.sdl_window ] := by
    rw [frame_calls, upload_size_of_lt _ h32, draw_count_of_lt _ h]
    have h192 : 32 * (6 * calls.length) = 192 * calls.length := by omega
    rw [h192]
  refine ⟨hcalls, ?_, quads_length r.color calls, ?_, ?_⟩
  · rw [hcalls]
    have hdiv : 192 * calls.length / 32 = 6 * calls.length := by omega
    simp only [List.flatMap_cons, List.flatMap_nil, GLCall.transferred, List.nil_append,
      List.append_nil, List.drop_zero, Int.toNat_ofNat, sizeof_Vertex, hdiv]
    exact frame_storage g uniform_location r calls
  · simp only [sizeof_Vertex]; omega
  · omega

/-- C9 at two rectangles: 12 vertices, 384 bytes, one draw call of 12. -/
theorem C9_frame_upload_and_draw_witness :
    6 * [(rect0, offset0), (rect0, offset0)].length < 2 ^ 31
    ∧ (renderer0.frame doubling location0 [(rect0, offset0), (rect0, offset0)]).2 =
        [ .glGetUniformLocation 3 "u_projection_matrix",
          .glUniformMatrix4fv 0 1 GL_TRUE (),
          .glBufferData GL_ARRAY_BUFFER 384 0 GL_DYNAMIC_DRAW,
          .glDrawArrays GL_TRIANGLES 0 12,
          .SDL_GL_SwapWindow 1 ] :=
  ⟨by decide,
   (C9_frame_upload_and_draw doubling location0 renderer0 [(rect0, offset0), (rect0, offset0)]
      (by decide)).1⟩

/-- C9 as stated fails for `k = 357913942`: the host buffer then holds
`6 * k = 2 ^ 31 + 4` vertices, `render()` passes that count to `glDrawArrays`,
whose count parameter is a `GLsizei`, and the draw call issued has the vertex
count `-2147483644`, not `6 * k`. -/
theorem C9_counterexample :
    (List.replicate many (rect0, offset0)).length = 357913942
    ∧ (renderer0.frame doubling location0 (List.replicate many (rect0, offset0))).2 =
        [ .glGetUniformLocation 3 "u_projection_matrix",
          .glUniformMatrix4fv 0 1 GL_TRUE (),
          .glBufferData GL_ARRAY_BUFFER 68719476864 0 GL_DYNAMIC_DRAW,
          .glDrawArrays GL_TRIANGLES 0 (-2147483644),
          .SDL_GL_SwapWindow 1 ]
    ∧ ¬ ((GLCall.glDrawArrays GL_TRIANGLES 0 ((6 * 357913942 : Nat) : Int) : GLCall Unit) ∈
          (renderer0.frame doubling location0 (List.replicate many (rect0, offset0))).2) := by
  have hlen : (List.replicate many (rect0, offset0)).length = 357913942 := List.length_replicate _ _
  have h1 : to_GLsizeiptr (to_size_t (sizeof_Vertex * to_uint32 (6 * 357913942))) = 68719476864 := by
    decide
  have h2 : to_GLsizei (to_uint32 (6 * 357913942)) = -2147483644 := by decide
  have hcalls : (renderer0.frame doubling location0 (List.replicate many (rect0, offset0))).2 =
      [ .glGetUniformLocation 3 "u_projection_matrix",
        .glUniformMatrix4fv 0 1 GL_TRUE (),
        .glBufferData GL_ARRAY_BUFFER 68719476864 0 GL_DYNAMIC_DRAW,
        .glDrawArrays GL_TRIANGLES 0 (-2147483644),
        .SDL_GL_SwapWindow 1 ] := by
    rw [frame_calls, hlen, h1, h2]
    rfl
  refine ⟨hlen, hcalls, ?_⟩
  rw [hcalls]
  simp only [List.mem_cons, List.mem_singleton, List.mem_nil_iff, or_false, reduceCtorEq,
    false_or, GLCall.glDrawArrays.injEq, true_and, not_false_eq_true]


/-- C5 after one rectangle: six vertices in the host buffer, one upload of 192
bytes; and after a frame of twelve vertices, a clear and six new vertices, again
192 bytes. -/
theorem C5_upload_vertex_buffer_witness :
    (renderer0.draw_cube3d doubling rect0 offset0).program_triangle.triangle_buffer.get_vertex_buffer_used
        < 2 ^ 32
    ∧ 6 < 2 ^ 32
    ∧ ((renderer0.draw_cube3d doubling rect0 offset0).program_triangle.upload_vertex_buffer :
          List (GLCall Unit)) =
        [ .glBufferData GL_ARRAY_BUFFER 192 0 GL_DYNAMIC_DRAW ]
    ∧ (((((renderer0.program_triangle.clear.alloc_vertices doubling 12).1.clear).alloc_vertices
          doubling 6).1.upload_vertex_buffer : List (GLCall Unit)) =
        [ .glBufferData GL_ARRAY_BUFFER 192 0 GL_DYNAMIC_DRAW ]) :=
  ⟨by decide, by decide,
   (C5_upload_vertex_buffer doubling
      (renderer0.draw_cube3d doubling rect0 offset0).program_triangle
      renderer0.program_triangle 12 6 (by decide) (by decide)).1,
   (C5_upload_vertex_buffer doubling
      (renderer0.draw_cube3d doubling rect0 offset0).program_triangle
      renderer0.program_triangle 12 6 (by decide) (by decide)).2.2.2.2.1⟩


end Opengl
end Graphics
